import Mathlib

/-!
Verification of the n-body animation utilities (`utils.py`): the frame advancers
`evoframe` / `evoframe3d` and the animation sessions `grid_animation2d` /
`density3d`, modelled as pure functions over an explicit model interface,
returning an event trace for stdout, file and rendering effects together with
the resulting model state and render artifact (or a raised Python error).
-/

/-- Numeric 2D array, a list of rows. -/
abbrev Mat := List (List ℚ)

/-- Numeric 3D array. -/
abbrev Arr3 := List (List (List ℚ))

/-- Column extraction `arr[:, j]`: the j-th entry of each row. -/
def col (rows : List (List ℚ)) (j : ℕ) : List ℚ :=
  rows.map fun r => r.getD j 0

/-- Sum along the last axis, `np.sum(d, axis=-1)` on a 3D array:
result[i][j] = sum over k of d[i][j][k]. -/
def sumAxisLast (d : Arr3) : Mat :=
  d.map fun plane => plane.map fun fiber => fiber.sum

/-- The diagnostic record built by the advancers:
the Python format string produces this exact text. -/
def egstr (frames : ℕ) (eg : ℚ) : String :=
  "Step " ++ toString frames ++ ": Total Energy is " ++ toString eg

/-- Observable effects emitted by the pipeline: file operations
(open-for-write truncates, open-for-append, write, close), stdout lines,
figure construction, initial-artifact seeding, warnings, GIF export and
interactive display. -/
inductive Event where
  | fopenW (path : String)
  | fopenA (path : String)
  | fwrite (path : String) (chunk : String)
  | fclose (path : String)
  | stdout (line : String)
  | figureBuilt
  | artifactSeeded
  | warn (msg : String)
  | gifExport (path : String)
  | showCall
  deriving DecidableEq, Repr

/-- Python-level errors the embedded code can raise. -/
inductive PyError where
  | unboundLocal (name : String)
  | attributeError (name : String)
  deriving DecidableEq, Repr

/-- The mutable render artifact: an image display backed by a 2D array
(supports set_array) or a line/scatter display (supports set_data). -/
inductive Plot where
  | image (arr : Mat)
  | line (xs ys : List ℚ)
  deriving DecidableEq, Repr

/-- File events of one diagnostic log append: a fresh open in append mode,
one write of the record plus a newline, and a close — or nothing when no
log path is configured. -/
def logEvents (logfile : Option String) (msg : String) : List Event :=
  match logfile with
  | some p => [Event.fopenA p, Event.fwrite p (msg ++ "\n"), Event.fclose p]
  | none => []

/-- External model interface (the nbody.NBody collaborator): attribute
accessors density / pos / ngrid over an abstract state, and evolve, which
maps a step count and a state to the new state and the diagnostic value. -/
structure ModelDyn (σ δ : Type) where
  density : σ → δ
  pos : σ → List (List ℚ)
  ngrid : σ → ℕ
  evolve : ℕ → σ → σ × ℚ

/-- The 2D frame advancer `evoframe`: evolve the model, print the diagnostic
record, append it to the log when configured, then update the artifact
according to the style tag (transpose of the 2D density for grid, position
columns 0 and 1 for pts, and no update for any other tag). -/
def evoframe {σ : Type} (dyn : ModelDyn σ Mat) (frames : ℕ) (s : σ) (plot : Plot)
    (type : String) (nsteps : ℕ) (marker : String) (logfile : Option String) :
    List Event × Except PyError (σ × Plot) :=
  let se := dyn.evolve nsteps s
  let egs := egstr frames se.2
  let evs := Event.stdout egs :: logEvents logfile egs
  let res : Except PyError (σ × Plot) :=
    if type = "grid" then
      match plot with
      | .image _ => .ok (se.1, .image (List.transpose (dyn.density se.1)))
      | .line _ _ => .error (.attributeError "set_array")
    else if type = "pts" then
      match plot with
      | .line _ _ => .ok (se.1, .line (col (dyn.pos se.1) 0) (col (dyn.pos se.1) 1))
      | .image _ => .error (.attributeError "set_data")
    else .ok (se.1, plot)
  (evs, res)

/-- The 3D frame advancer `evoframe3d`: identical to `evoframe` except that
the grid branch first collapses the 3D density by summing along its last
axis before transposing. -/
def evoframe3d {σ : Type} (dyn : ModelDyn σ Arr3) (frames : ℕ) (s : σ) (plot : Plot)
    (type : String) (nsteps : ℕ) (marker : String) (logfile : Option String) :
    List Event × Except PyError (σ × Plot) :=
  let se := dyn.evolve nsteps s
  let egs := egstr frames se.2
  let evs := Event.stdout egs :: logEvents logfile egs
  let res : Except PyError (σ × Plot) :=
    if type = "grid" then
      match plot with
      | .image _ => .ok (se.1, .image (List.transpose (sumAxisLast (dyn.density se.1))))
      | .line _ _ => .error (.attributeError "set_array")
    else if type = "pts" then
      match plot with
      | .line _ _ => .ok (se.1, .line (col (dyn.pos se.1) 0) (col (dyn.pos se.1) 1))
      | .image _ => .error (.attributeError "set_data")
    else .ok (se.1, plot)
  (evs, res)

/-- The timed iteration driver (animation.FuncAnimation as the spec models
it): invoke the per-tick callback once per frame index, in order, threading
the model state and artifact, concatenating emitted events, and stopping at
the first raised error. -/
def funcAnimation {σ : Type}
    (adv : ℕ → σ → Plot → List Event × Except PyError (σ × Plot)) :
    List ℕ → σ → Plot → List Event × Except PyError (σ × Plot)
  | [], s, p => ([], .ok (s, p))
  | j :: rest, s, p =>
    let r := adv j s p
    match r.2 with
    | .error e => (r.1, .error e)
    | .ok sp =>
      let r2 := funcAnimation adv rest sp.1 sp.2
      (r.1 ++ r2.1, r2.2)

/-- Session-start log handling: when a log path is given, open it for
writing (creating or truncating it) and close it immediately. -/
def truncEvents (logfile : Option String) : List Event :=
  match logfile with
  | some p => [Event.fopenW p, Event.fclose p]
  | none => []

/-- Python string split on a dot, over the character list: the accumulator
holds the current segment reversed. -/
def splitDotAux : List Char → List Char → List String
  | [], cur => [String.mk cur.reverse]
  | c :: rest, cur =>
    if c = '.' then String.mk cur.reverse :: splitDotAux rest []
    else splitDotAux rest (c :: cur)

/-- The extension check `savepath.split('.')[-1]`: the substring after the
last dot, or the whole path when it contains no dot. -/
def fformatOf (p : String) : String :=
  (splitDotAux p.data []).getLastD ""

/-- The warning message used when the save path does not end in gif. It is
the literal Python template: the placeholder is never interpolated. -/
def warnMsg : String :=
  "Incorrect file format (.\x7b\x7d instead of .gif). Animation will not be saved."

/-- Save handling: nothing without a save path; a RuntimeWarning (and no
export) when the extension check fails; a GIF export otherwise. -/
def saveEvents (savepath : Option String) : List Event :=
  match savepath with
  | none => []
  | some sp => if fformatOf sp ≠ "gif" then [Event.warn warnMsg] else [Event.gifExport sp]

/-- Interactive display events: plt.show when the show flag is set. -/
def showEvents (showFlag : Bool) : List Event :=
  if showFlag then [Event.showCall] else []

/-- Initial artifact of `grid_animation2d`: imshow of the transposed 2D
density for grid, a line plot of position columns 0 and 1 for pts, and
unbound (none) for any other style. -/
def grid2dInitPlot {σ : Type} (dyn : ModelDyn σ Mat) (s0 : σ) (style : String) :
    Option Plot :=
  if style = "grid" then some (.image (List.transpose (dyn.density s0)))
  else if style = "pts" then some (.line (col (dyn.pos s0) 0) (col (dyn.pos s0) 1))
  else none

/-- Initial artifact of `density3d`: imshow of the transposed last-axis sum
of the 3D density for grid, a line plot of position columns 0 and 1 for pts,
and unbound (none) for any other style. -/
def density3dInitPlot {σ : Type} (dyn : ModelDyn σ Arr3) (s0 : σ) (style : String) :
    Option Plot :=
  if style = "grid" then some (.image (List.transpose (sumAxisLast (dyn.density s0))))
  else if style = "pts" then some (.line (col (dyn.pos s0) 0) (col (dyn.pos s0) 1))
  else none

/-- The 2D animation session `grid_animation2d`: truncate the log when
configured, build the figure, seed the initial artifact (raising
UnboundLocalError at frame-context assembly when the style bound no plot),
run the driver over frames 0..niter-1 with `evoframe`, then handle the save
path and the show flag. -/
def grid_animation2d {σ : Type} (dyn : ModelDyn σ Mat) (s0 : σ) (niter : ℕ)
    (showFlag : Bool) (savepath : Option String) (figsize : ℚ × ℚ) (intv : ℚ)
    (title : Option String) (rep : Bool) (nsteps : ℕ) (style : String)
    (marker : String) (norm : Option String) (cmap : Option String)
    (logfile : Option String) : List Event × Except PyError (σ × Plot) :=
  match grid2dInitPlot dyn s0 style with
  | none => (truncEvents logfile ++ [Event.figureBuilt], .error (.unboundLocal "plot"))
  | some plot0 =>
    let fr := funcAnimation (fun j s pl => evoframe dyn j s pl style nsteps marker logfile)
      (List.range niter) s0 plot0
    let pre := truncEvents logfile ++ [Event.figureBuilt, Event.artifactSeeded]
    match fr.2 with
    | .error e => (pre ++ fr.1, .error e)
    | .ok sp => (pre ++ fr.1 ++ saveEvents savepath ++ showEvents showFlag, .ok sp)

/-- The 3D animation session `density3d`: identical to `grid_animation2d`
except that the initial grid artifact and the per-frame updates collapse the
3D density by summing along its last axis (via `evoframe3d`). -/
def density3d {σ : Type} (dyn : ModelDyn σ Arr3) (s0 : σ) (niter : ℕ)
    (showFlag : Bool) (savepath : Option String) (figsize : ℚ × ℚ) (intv : ℚ)
    (title : Option String) (rep : Bool) (nsteps : ℕ) (style : String)
    (marker : String) (norm : Option String) (cmap : Option String)
    (logfile : Option String) : List Event × Except PyError (σ × Plot) :=
  match density3dInitPlot dyn s0 style with
  | none => (truncEvents logfile ++ [Event.figureBuilt], .error (.unboundLocal "plot"))
  | some plot0 =>
    let fr := funcAnimation (fun j s pl => evoframe3d dyn j s pl style nsteps marker logfile)
      (List.range niter) s0 plot0
    let pre := truncEvents logfile ++ [Event.figureBuilt, Event.artifactSeeded]
    match fr.2 with
    | .error e => (pre ++ fr.1, .error e)
    | .ok sp => (pre ++ fr.1 ++ saveEvents savepath ++ showEvents showFlag, .ok sp)

/-- One model advance: the state component of evolve. -/
def stepState {σ δ : Type} (dyn : ModelDyn σ δ) (nsteps : ℕ) (s : σ) : σ :=
  (dyn.evolve nsteps s).1

/-- The diagnostic value returned by evolve on the k-th tick of a session
started in state s0. -/
def energyAt {σ δ : Type} (dyn : ModelDyn σ δ) (nsteps : ℕ) (s0 : σ) (k : ℕ) : ℚ :=
  (dyn.evolve nsteps ((stepState dyn nsteps)^[k] s0)).2

/-- The stdout and log events a run of the frame advancer over the given
frame indices emits, independent of the style tag. -/
def frameTrace {σ δ : Type} (dyn : ModelDyn σ δ) (nsteps : ℕ) (lf : Option String) :
    List ℕ → σ → List Event
  | [], _ => []
  | j :: rest, s =>
    let se := dyn.evolve nsteps s
    Event.stdout (egstr j se.2) ::
      (logEvents lf (egstr j se.2) ++ frameTrace dyn nsteps lf rest se.1)

/-- The log lines (with trailing newline) a run over the given frame
indices writes, threading the model state. -/
def writesAux {σ δ : Type} (dyn : ModelDyn σ δ) (nsteps : ℕ) : List ℕ → σ → List String
  | [], _ => []
  | j :: rest, s =>
    (egstr j (dyn.evolve nsteps s).2 ++ "\n") ::
      writesAux dyn nsteps rest (dyn.evolve nsteps s).1

/-- The chunks written to the given path by a list of events. -/
def logWrites (p : String) (evs : List Event) : List String :=
  evs.filterMap fun e => match e with
    | .fwrite q c => if q = p then some c else none
    | _ => none

/-- File-system semantics of one event for one path: open-for-write
truncates the content, a write appends to it, every other event leaves it
unchanged. -/
def fileStep (p : String) (acc : String) : Event → String
  | .fopenW q => if q = p then "" else acc
  | .fwrite q c => if q = p then acc ++ c else acc
  | _ => acc

/-- File-system semantics of a trace for one path, folding `fileStep`. -/
def fileContentFrom (p : String) : String → List Event → String
  | acc, [] => acc
  | acc, e :: rest => fileContentFrom p (fileStep p acc e) rest

/-- Content of the file at the given path after a trace, starting empty. -/
def fileContent (p : String) (evs : List Event) : String :=
  fileContentFrom p "" evs

/-- Concatenate a list of lines, terminating each with a newline. -/
def unlines : List String → String
  | [] => ""
  | l :: rest => l ++ "\n" ++ unlines rest

/-- Concatenate a list of string chunks. -/
def concatAll : List String → String
  | [] => ""
  | c :: rest => c ++ concatAll rest

/-- Events a frame advancer may emit: stdout and log-file traffic only. -/
def frameish : Event → Bool
  | .stdout _ => true
  | .fopenA _ => true
  | .fwrite _ _ => true
  | .fclose _ => true
  | _ => false

/-- A trivial concrete model over the unit state, for witnesses. -/
def dynTriv2 : ModelDyn Unit Mat where
  density := fun _ => [[0]]
  pos := fun _ => [[0, 0]]
  ngrid := fun _ => 1
  evolve := fun _ s => (s, 0)

/-- A trivial concrete 3D-density model over the unit state, for witnesses. -/
def dynTriv3 : ModelDyn Unit Arr3 where
  density := fun _ => [[[0]]]
  pos := fun _ => [[0, 0]]
  ngrid := fun _ => 1
  evolve := fun _ s => (s, 0)

/-- C1: a grid-style tick of the 3D frame advancer `evoframe3d` sets the
artifact's backing array to the transpose of the element-wise sum of the
(post-evolve) density over its third axis, and the 3D session's initial
artifact is seeded with the same sum-then-transpose projection. -/
theorem c1_grid3d_sum_transpose {σ : Type} (dyn : ModelDyn σ Arr3) (i : ℕ) (s s0 : σ)
    (a : Mat) (nsteps : ℕ) (marker : String) (lf : Option String) :
    evoframe3d dyn i s (Plot.image a) "grid" nsteps marker lf =
      (Event.stdout (egstr i (dyn.evolve nsteps s).2) ::
         logEvents lf (egstr i (dyn.evolve nsteps s).2),
       .ok ((dyn.evolve nsteps s).1,
            Plot.image (List.transpose (sumAxisLast (dyn.density (dyn.evolve nsteps s).1)))))
    ∧ density3dInitPlot dyn s0 "grid" =
        some (Plot.image (List.transpose (sumAxisLast (dyn.density s0)))) :=
  ⟨rfl, rfl⟩

/-- C2: every frame-advancer invocation emits the record
`Step i: Total Energy is v` (v the value returned by evolve) on stdout
unconditionally, and exactly when a log path is configured it additionally
appends that record plus a newline via a fresh open/append/close within
the same invocation. -/
theorem c2_diagnostic_reporter {σ σ2 : Type} (dyn : ModelDyn σ Mat)
    (dyn3 : ModelDyn σ2 Arr3) (i : ℕ) (s : σ) (t : σ2) (plot plot2 : Plot)
    (type type2 : String) (nsteps : ℕ) (marker : String) (lf : Option String) :
    (evoframe dyn i s plot type nsteps marker lf).1 =
      Event.stdout (egstr i (dyn.evolve nsteps s).2) ::
        logEvents lf (egstr i (dyn.evolve nsteps s).2) ∧
    (evoframe3d dyn3 i t plot2 type2 nsteps marker lf).1 =
      Event.stdout (egstr i (dyn3.evolve nsteps t).2) ::
        logEvents lf (egstr i (dyn3.evolve nsteps t).2) ∧
    (∀ m : String, logEvents none m = []) ∧
    (∀ p m : String,
      logEvents (some p) m = [Event.fopenA p, Event.fwrite p (m ++ "\n"), Event.fclose p]) :=
  ⟨rfl, rfl, fun _ => rfl, fun _ _ => rfl⟩

/-- C4: for a style tag that is neither grid nor pts, both frame advancers
still evolve the model and report the diagnostic, raise no error, and leave
the render artifact exactly unchanged. -/
theorem c4_unknown_style_advancer_noop {σ σ2 : Type} (dyn : ModelDyn σ Mat)
    (dyn3 : ModelDyn σ2 Arr3) (i : ℕ) (s : σ) (t : σ2) (plot plot2 : Plot)
    (type : String) (nsteps : ℕ) (marker : String) (lf : Option String)
    (h1 : type ≠ "grid") (h2 : type ≠ "pts") :
    evoframe dyn i s plot type nsteps marker lf =
      (Event.stdout (egstr i (dyn.evolve nsteps s).2) ::
         logEvents lf (egstr i (dyn.evolve nsteps s).2),
       .ok ((dyn.evolve nsteps s).1, plot)) ∧
    evoframe3d dyn3 i t plot2 type nsteps marker lf =
      (Event.stdout (egstr i (dyn3.evolve nsteps t).2) ::
         logEvents lf (egstr i (dyn3.evolve nsteps t).2),
       .ok ((dyn3.evolve nsteps t).1, plot2)) := by
  constructor <;> simp [evoframe, evoframe3d, h1, h2]

/-- C4 witness: the unknown style tag blob at a concrete model. -/
theorem c4_unknown_style_advancer_noop_witness :
    ("blob" : String) ≠ "grid" ∧ ("blob" : String) ≠ "pts" ∧
    (evoframe dynTriv2 0 () (Plot.image [[0]]) "blob" 1 "o" none =
       (Event.stdout (egstr 0 (dynTriv2.evolve 1 ()).2) ::
          logEvents none (egstr 0 (dynTriv2.evolve 1 ()).2),
        .ok ((dynTriv2.evolve 1 ()).1, Plot.image [[0]])) ∧
     evoframe3d dynTriv3 0 () (Plot.image [[0]]) "blob" 1 "o" none =
       (Event.stdout (egstr 0 (dynTriv3.evolve 1 ()).2) ::
          logEvents none (egstr 0 (dynTriv3.evolve 1 ()).2),
        .ok ((dynTriv3.evolve 1 ()).1, Plot.image [[0]]))) :=
  ⟨by decide, by decide,
   c4_unknown_style_advancer_noop dynTriv2 dynTriv3 0 () () (Plot.image [[0]])
     (Plot.image [[0]]) "blob" 1 "o" none (by decide) (by decide)⟩

/-- C7: for the pts style, after a tick the artifact's coordinate pair is
exactly column 0 and column 1 of the model's position array as it stands
after that tick's evolve, identically in both frame advancers. -/
theorem c7_points_passthrough {σ σ2 : Type} (dyn : ModelDyn σ Mat)
    (dyn3 : ModelDyn σ2 Arr3) (i : ℕ) (s : σ) (t : σ2) (xs ys xs2 ys2 : List ℚ)
    (nsteps : ℕ) (marker : String) (lf : Option String) :
    evoframe dyn i s (Plot.line xs ys) "pts" nsteps marker lf =
      (Event.stdout (egstr i (dyn.evolve nsteps s).2) ::
         logEvents lf (egstr i (dyn.evolve nsteps s).2),
       .ok ((dyn.evolve nsteps s).1,
            Plot.line (col (dyn.pos (dyn.evolve nsteps s).1) 0)
              (col (dyn.pos (dyn.evolve nsteps s).1) 1))) ∧
    evoframe3d dyn3 i t (Plot.line xs2 ys2) "pts" nsteps marker lf =
      (Event.stdout (egstr i (dyn3.evolve nsteps t).2) ::
         logEvents lf (egstr i (dyn3.evolve nsteps t).2),
       .ok ((dyn3.evolve nsteps t).1,
            Plot.line (col (dyn3.pos (dyn3.evolve nsteps t).1) 0)
              (col (dyn3.pos (dyn3.evolve nsteps t).1) 1))) :=
  ⟨rfl, rfl⟩

/-- C10: for the pts style the two frame advancers are extensionally
equivalent on any model whose observable interface (position and evolve)
agrees: same event trace, same resulting state and artifact. -/
theorem c10_pts_advancers_equiv {σ : Type} (dyn2 : ModelDyn σ Mat)
    (dyn3 : ModelDyn σ Arr3) (hpos : dyn2.pos = dyn3.pos)
    (hev : dyn2.evolve = dyn3.evolve) (i : ℕ) (s : σ) (plot : Plot) (nsteps : ℕ)
    (marker : String) (lf : Option String) :
    evoframe dyn2 i s plot "pts" nsteps marker lf =
      evoframe3d dyn3 i s plot "pts" nsteps marker lf := by
  cases plot <;> simp [evoframe, evoframe3d, hpos, hev]

/-- C10 witness: the two trivial concrete models share position and evolve. -/
theorem c10_pts_advancers_equiv_witness :
    dynTriv2.pos = dynTriv3.pos ∧ dynTriv2.evolve = dynTriv3.evolve ∧
    evoframe dynTriv2 0 () (Plot.line [] []) "pts" 1 "o" none =
      evoframe3d dynTriv3 0 () (Plot.line [] []) "pts" 1 "o" none :=
  ⟨rfl, rfl, c10_pts_advancers_equiv dynTriv2 dynTriv3 rfl rfl 0 () (Plot.line [] []) 1 "o" none⟩

/-- Unfolding of one successful driver step. -/
theorem funcAnimation_cons {σ : Type}
    (adv : ℕ → σ → Plot → List Event × Except PyError (σ × Plot))
    (j : ℕ) (rest : List ℕ) (s : σ) (p : Plot) {evs : List Event} {s2 : σ} {p2 : Plot}
    (h : adv j s p = (evs, .ok (s2, p2))) :
    funcAnimation adv (j :: rest) s p =
      (evs ++ (funcAnimation adv rest s2 p2).1, (funcAnimation adv rest s2 p2).2) := by
  simp [funcAnimation, h]

/-- A driver run whose callback succeeds on every tick, preserving a plot
invariant, produces exactly the frame trace, the iterated model state, and a
plot still satisfying the invariant. -/
theorem funcAnimation_frames {σ δ : Type} (dyn : ModelDyn σ δ) (nsteps : ℕ)
    (lf : Option String)
    (adv : ℕ → σ → Plot → List Event × Except PyError (σ × Plot))
    (P : Plot → Prop)
    (hstep : ∀ (j : ℕ) (s : σ) (pl : Plot), P pl → ∃ pl2, P pl2 ∧
      adv j s pl = (Event.stdout (egstr j (dyn.evolve nsteps s).2) ::
                      logEvents lf (egstr j (dyn.evolve nsteps s).2),
                    .ok ((dyn.evolve nsteps s).1, pl2))) :
    ∀ (js : List ℕ) (s : σ) (pl : Plot), P pl → ∃ pl2, P pl2 ∧
      funcAnimation adv js s pl =
        (frameTrace dyn nsteps lf js s,
         .ok ((stepState dyn nsteps)^[js.length] s, pl2)) := by
  intro js
  induction js with
  | nil => exact fun s pl hp => ⟨pl, hp, rfl⟩
  | cons j rest ih =>
    intro s pl hp
    obtain ⟨pl1, hp1, h1⟩ := hstep j s pl hp
    obtain ⟨pl2, hp2, h2⟩ := ih ((dyn.evolve nsteps s).1) pl1 hp1
    refine ⟨pl2, hp2, ?_⟩
    rw [funcAnimation_cons adv j rest s pl h1, h2]
    simp [frameTrace, stepState, Function.iterate_succ_apply]

/-- A grid-style 2D run starting from an image artifact succeeds. -/
theorem run_grid2d {σ : Type} (dyn : ModelDyn σ Mat) (nsteps : ℕ) (marker : String)
    (lf : Option String) (js : List ℕ) (s : σ) (a : Mat) :
    ∃ a2, funcAnimation (fun j t pl => evoframe dyn j t pl "grid" nsteps marker lf) js s
        (Plot.image a) =
      (frameTrace dyn nsteps lf js s,
       .ok ((stepState dyn nsteps)^[js.length] s, Plot.image a2)) := by
  have hstep : ∀ (j : ℕ) (t : σ) (pl : Plot), (∃ m, pl = Plot.image m) →
      ∃ pl2, (∃ m, pl2 = Plot.image m) ∧
        (fun j t pl => evoframe dyn j t pl "grid" nsteps marker lf) j t pl =
          (Event.stdout (egstr j (dyn.evolve nsteps t).2) ::
             logEvents lf (egstr j (dyn.evolve nsteps t).2),
           .ok ((dyn.evolve nsteps t).1, pl2)) := by
    rintro j t pl ⟨m, rfl⟩
    exact ⟨Plot.image (List.transpose (dyn.density (dyn.evolve nsteps t).1)), ⟨_, rfl⟩, rfl⟩
  obtain ⟨pl2, ⟨m, rfl⟩, h2⟩ :=
    funcAnimation_frames dyn nsteps lf _ _ hstep js s (Plot.image a) ⟨a, rfl⟩
  exact ⟨m, h2⟩

/-- A pts-style 2D run starting from a line artifact succeeds. -/
theorem run_pts2d {σ : Type} (dyn : ModelDyn σ Mat) (nsteps : ℕ) (marker : String)
    (lf : Option String) (js : List ℕ) (s : σ) (xs ys : List ℚ) :
    ∃ xs2 ys2, funcAnimation (fun j t pl => evoframe dyn j t pl "pts" nsteps marker lf) js s
        (Plot.line xs ys) =
      (frameTrace dyn nsteps lf js s,
       .ok ((stepState dyn nsteps)^[js.length] s, Plot.line xs2 ys2)) := by
  have hstep : ∀ (j : ℕ) (t : σ) (pl : Plot), (∃ u v, pl = Plot.line u v) →
      ∃ pl2, (∃ u v, pl2 = Plot.line u v) ∧
        (fun j t pl => evoframe dyn j t pl "pts" nsteps marker lf) j t pl =
          (Event.stdout (egstr j (dyn.evolve nsteps t).2) ::
             logEvents lf (egstr j (dyn.evolve nsteps t).2),
           .ok ((dyn.evolve nsteps t).1, pl2)) := by
    rintro j t pl ⟨u, v, rfl⟩
    exact ⟨Plot.line (col (dyn.pos (dyn.evolve nsteps t).1) 0)
      (col (dyn.pos (dyn.evolve nsteps t).1) 1), ⟨_, _, rfl⟩, rfl⟩
  obtain ⟨pl2, ⟨u, v, rfl⟩, h2⟩ :=
    funcAnimation_frames dyn nsteps lf _ _ hstep js s (Plot.line xs ys) ⟨xs, ys, rfl⟩
  exact ⟨u, v, h2⟩

/-- A grid-style 3D run starting from an image artifact succeeds. -/
theorem run_grid3d {σ : Type} (dyn : ModelDyn σ Arr3) (nsteps : ℕ) (marker : String)
    (lf : Option String) (js : List ℕ) (s : σ) (a : Mat) :
    ∃ a2, funcAnimation (fun j t pl => evoframe3d dyn j t pl "grid" nsteps marker lf) js s
        (Plot.image a) =
      (frameTrace dyn nsteps lf js s,
       .ok ((stepState dyn nsteps)^[js.length] s, Plot.image a2)) := by
  have hstep : ∀ (j : ℕ) (t : σ) (pl : Plot), (∃ m, pl = Plot.image m) →
      ∃ pl2, (∃ m, pl2 = Plot.image m) ∧
        (fun j t pl => evoframe3d dyn j t pl "grid" nsteps marker lf) j t pl =
          (Event.stdout (egstr j (dyn.evolve nsteps t).2) ::
             logEvents lf (egstr j (dyn.evolve nsteps t).2),
           .ok ((dyn.evolve nsteps t).1, pl2)) := by
    rintro j t pl ⟨m, rfl⟩
    exact ⟨Plot.image (List.transpose (sumAxisLast (dyn.density (dyn.evolve nsteps t).1))),
      ⟨_, rfl⟩, rfl⟩
  obtain ⟨pl2, ⟨m, rfl⟩, h2⟩ :=
    funcAnimation_frames dyn nsteps lf _ _ hstep js s (Plot.image a) ⟨a, rfl⟩
  exact ⟨m, h2⟩

/-- A pts-style 3D run starting from a line artifact succeeds. -/
theorem run_pts3d {σ : Type} (dyn : ModelDyn σ Arr3) (nsteps : ℕ) (marker : String)
    (lf : Option String) (js : List ℕ) (s : σ) (xs ys : List ℚ) :
    ∃ xs2 ys2, funcAnimation (fun j t pl => evoframe3d dyn j t pl "pts" nsteps marker lf) js s
        (Plot.line xs ys) =
      (frameTrace dyn nsteps lf js s,
       .ok ((stepState dyn nsteps)^[js.length] s, Plot.line xs2 ys2)) := by
  have hstep : ∀ (j : ℕ) (t : σ) (pl : Plot), (∃ u v, pl = Plot.line u v) →
      ∃ pl2, (∃ u v, pl2 = Plot.line u v) ∧
        (fun j t pl => evoframe3d dyn j t pl "pts" nsteps marker lf) j t pl =
          (Event.stdout (egstr j (dyn.evolve nsteps t).2) ::
             logEvents lf (egstr j (dyn.evolve nsteps t).2),
           .ok ((dyn.evolve nsteps t).1, pl2)) := by
    rintro j t pl ⟨u, v, rfl⟩
    exact ⟨Plot.line (col (dyn.pos (dyn.evolve nsteps t).1) 0)
      (col (dyn.pos (dyn.evolve nsteps t).1) 1), ⟨_, _, rfl⟩, rfl⟩
  obtain ⟨pl2, ⟨u, v, rfl⟩, h2⟩ :=
    funcAnimation_frames dyn nsteps lf _ _ hstep js s (Plot.line xs ys) ⟨xs, ys, rfl⟩
  exact ⟨u, v, h2⟩

/-- A 2D session with a recognized style runs to completion and its trace is
the session prologue, the frame trace, and the save / show epilogue. -/
theorem grid_animation2d_run {σ : Type} (dyn : ModelDyn σ Mat) (s0 : σ) (niter : ℕ)
    (showFlag : Bool) (savepath : Option String) (figsize : ℚ × ℚ) (intv : ℚ)
    (title : Option String) (rep : Bool) (nsteps : ℕ) (style : String) (marker : String)
    (norm cmap : Option String) (logfile : Option String)
    (hstyle : style = "grid" ∨ style = "pts") :
    ∃ sN pN,
      grid_animation2d dyn s0 niter showFlag savepath figsize intv title rep nsteps style
          marker norm cmap logfile =
        (truncEvents logfile ++ [Event.figureBuilt, Event.artifactSeeded] ++
           frameTrace dyn nsteps logfile (List.range niter) s0 ++
           saveEvents savepath ++ showEvents showFlag,
         .ok (sN, pN)) := by
  rcases hstyle with h | h <;> subst h
  · obtain ⟨a2, h2⟩ := run_grid2d dyn nsteps marker logfile (List.range niter) s0
      (List.transpose (dyn.density s0))
    refine ⟨(stepState dyn nsteps)^[(List.range niter).length] s0, Plot.image a2, ?_⟩
    simp [grid_animation2d, grid2dInitPlot, h2]
  · obtain ⟨xs2, ys2, h2⟩ := run_pts2d dyn nsteps marker logfile (List.range niter) s0
      (col (dyn.pos s0) 0) (col (dyn.pos s0) 1)
    refine ⟨(stepState dyn nsteps)^[(List.range niter).length] s0, Plot.line xs2 ys2, ?_⟩
    simp [grid_animation2d, grid2dInitPlot, h2]

/-- A 3D session with a recognized style runs to completion and its trace is
the session prologue, the frame trace, and the save / show epilogue. -/
theorem density3d_run {σ : Type} (dyn : ModelDyn σ Arr3) (s0 : σ) (niter : ℕ)
    (showFlag : Bool) (savepath : Option String) (figsize : ℚ × ℚ) (intv : ℚ)
    (title : Option String) (rep : Bool) (nsteps : ℕ) (style : String) (marker : String)
    (norm cmap : Option String) (logfile : Option String)
    (hstyle : style = "grid" ∨ style = "pts") :
    ∃ sN pN,
      density3d dyn s0 niter showFlag savepath figsize intv title rep nsteps style
          marker norm cmap logfile =
        (truncEvents logfile ++ [Event.figureBuilt, Event.artifactSeeded] ++
           frameTrace dyn nsteps logfile (List.range niter) s0 ++
           saveEvents savepath ++ showEvents showFlag,
         .ok (sN, pN)) := by
  rcases hstyle with h | h <;> subst h
  · obtain ⟨a2, h2⟩ := run_grid3d dyn nsteps marker logfile (List.range niter) s0
      (List.transpose (sumAxisLast (dyn.density s0)))
    refine ⟨(stepState dyn nsteps)^[(List.range niter).length] s0, Plot.image a2, ?_⟩
    simp [density3d, density3dInitPlot, h2]
  · obtain ⟨xs2, ys2, h2⟩ := run_pts3d dyn nsteps marker logfile (List.range niter) s0
      (col (dyn.pos s0) 0) (col (dyn.pos s0) 1)
    refine ⟨(stepState dyn nsteps)^[(List.range niter).length] s0, Plot.line xs2 ys2, ?_⟩
    simp [density3d, density3dInitPlot, h2]

/-- Every event of a frame trace is stdout or log-file traffic. -/
theorem frameTrace_frameish {σ δ : Type} (dyn : ModelDyn σ δ) (nsteps : ℕ)
    (lf : Option String) : ∀ (js : List ℕ) (s : σ), ∀ e ∈ frameTrace dyn nsteps lf js s,
      frameish e = true := by
  intro js
  induction js with
  | nil => intro s e he; simp [frameTrace] at he
  | cons j rest ih =>
    intro s e he
    simp only [frameTrace, List.mem_cons, List.mem_append] at he
    rcases he with rfl | he | he
    · rfl
    · cases lf with
      | none => simp [logEvents] at he
      | some p =>
        simp only [logEvents, List.mem_cons, List.not_mem_nil, or_false] at he
        rcases he with rfl | rfl | rfl <;> rfl
    · exact ih _ e he

/-- Events that are not frame traffic never occur in a frame trace. -/
theorem frameTrace_not_mem {σ δ : Type} (dyn : ModelDyn σ δ) (nsteps : ℕ)
    (lf : Option String) (js : List ℕ) (s : σ) (e : Event) (hne : frameish e = false) :
    e ∉ frameTrace dyn nsteps lf js s := fun he => by
  have h := frameTrace_frameish dyn nsteps lf js s e he
  rw [hne] at h
  exact Bool.false_ne_true h

/-- A non-frame, non-prologue, non-show event occurs in a completed session
trace exactly when the save step emits it. -/
theorem mem_trace_iff_mem_save {σ δ : Type} (dyn : ModelDyn σ δ) (nsteps : ℕ)
    (lf lf2 : Option String) (js : List ℕ) (s : σ) (sv : Option String) (b : Bool)
    (e : Event) (hfr : frameish e = false) (h1 : e ≠ Event.figureBuilt)
    (h2 : e ≠ Event.artifactSeeded) (h3 : e ≠ Event.showCall)
    (h4 : ∀ q, e ≠ Event.fopenW q) (h5 : ∀ q, e ≠ Event.fclose q) :
    (e ∈ truncEvents lf ++ [Event.figureBuilt, Event.artifactSeeded] ++
       frameTrace dyn nsteps lf2 js s ++ saveEvents sv ++ showEvents b) ↔
      e ∈ saveEvents sv := by
  have hft := frameTrace_not_mem dyn nsteps lf2 js s e hfr
  cases lf <;> cases b <;>
    simp [truncEvents, showEvents, List.mem_append, hft, h1, h2, h3, h4, h5]

/-- C8: with a style that is neither grid nor pts, both session constructors
raise an unbound-local error at frame-context assembly — the trace stops at
figure construction (no artifact is seeded and no frame ever executes). -/
theorem c8_unknown_style_session_raises {σ σ2 : Type} (dyn : ModelDyn σ Mat)
    (dyn3 : ModelDyn σ2 Arr3) (s0 : σ) (t0 : σ2) (niter : ℕ) (showFlag : Bool)
    (savepath : Option String) (figsize : ℚ × ℚ) (intv : ℚ) (title : Option String)
    (rep : Bool) (nsteps : ℕ) (style : String) (marker : String) (norm cmap : Option String)
    (logfile : Option String) (h1 : style ≠ "grid") (h2 : style ≠ "pts") :
    grid_animation2d dyn s0 niter showFlag savepath figsize intv title rep nsteps style
        marker norm cmap logfile =
      (truncEvents logfile ++ [Event.figureBuilt], .error (.unboundLocal "plot")) ∧
    density3d dyn3 t0 niter showFlag savepath figsize intv title rep nsteps style
        marker norm cmap logfile =
      (truncEvents logfile ++ [Event.figureBuilt], .error (.unboundLocal "plot")) := by
  constructor <;>
    simp [grid_animation2d, density3d, grid2dInitPlot, density3dInitPlot, h1, h2]

/-- C8 witness: the unknown style circle at concrete sessions. -/
theorem c8_unknown_style_session_raises_witness :
    ("circle" : String) ≠ "grid" ∧ ("circle" : String) ≠ "pts" ∧
    (grid_animation2d dynTriv2 () 3 true none (8, 10) 200 none false 1 "circle" "o" none
         none (some "log.txt") =
       (truncEvents (some "log.txt") ++ [Event.figureBuilt],
        .error (.unboundLocal "plot")) ∧
     density3d dynTriv3 () 3 true none (8, 10) 200 none false 1 "circle" "o" none none
         (some "log.txt") =
       (truncEvents (some "log.txt") ++ [Event.figureBuilt],
        .error (.unboundLocal "plot"))) :=
  ⟨by decide, by decide,
   c8_unknown_style_session_raises dynTriv2 dynTriv3 () () 3 true none (8, 10) 200 none
     false 1 "circle" "o" none none (some "log.txt") (by decide) (by decide)⟩

/-- C3 counterexample: the save path gif contains no dot, yet the session
invokes the GIF export and emits no warning — refuting the claim that a
path with no dot triggers a RuntimeWarning and skips export. -/
theorem c3_gif_check_counterexample :
    '.' ∉ "gif".data ∧
    (grid_animation2d dynTriv2 () 0 false (some "gif") (8, 10) 200 none false 1 "grid"
        "o" none none none).1 =
      [Event.figureBuilt, Event.artifactSeeded, Event.gifExport "gif"] := by
  constructor
  · decide
  · rfl

/-- C3 amended: the GIF export is invoked exactly when the final
dot-separated segment of the save path — the whole path when it contains no
dot — equals gif; otherwise a RuntimeWarning is emitted and export is
skipped, while the session still completes normally. -/
theorem c3_amended_gif_check {σ σ2 : Type} (dyn : ModelDyn σ Mat) (dyn3 : ModelDyn σ2 Arr3)
    (s0 : σ) (t0 : σ2) (niter : ℕ) (showFlag : Bool) (sp : String) (figsize : ℚ × ℚ)
    (intv : ℚ) (title : Option String) (rep : Bool) (nsteps : ℕ) (style : String)
    (marker : String) (norm cmap : Option String) (logfile : Option String)
    (hstyle : style = "grid" ∨ style = "pts") :
    ((Event.gifExport sp ∈ (grid_animation2d dyn s0 niter showFlag (some sp) figsize intv
        title rep nsteps style marker norm cmap logfile).1) ↔ fformatOf sp = "gif") ∧
    ((Event.warn warnMsg ∈ (grid_animation2d dyn s0 niter showFlag (some sp) figsize intv
        title rep nsteps style marker norm cmap logfile).1) ↔ fformatOf sp ≠ "gif") ∧
    (∃ r, (grid_animation2d dyn s0 niter showFlag (some sp) figsize intv title rep nsteps
        style marker norm cmap logfile).2 = Except.ok r) ∧
    ((Event.gifExport sp ∈ (density3d dyn3 t0 niter showFlag (some sp) figsize intv
        title rep nsteps style marker norm cmap logfile).1) ↔ fformatOf sp = "gif") ∧
    ((Event.warn warnMsg ∈ (density3d dyn3 t0 niter showFlag (some sp) figsize intv
        title rep nsteps style marker norm cmap logfile).1) ↔ fformatOf sp ≠ "gif") ∧
    (∃ r, (density3d dyn3 t0 niter showFlag (some sp) figsize intv title rep nsteps
        style marker norm cmap logfile).2 = Except.ok r) := by
  obtain ⟨sN, pN, h2⟩ := grid_animation2d_run dyn s0 niter showFlag (some sp) figsize intv
    title rep nsteps style marker norm cmap logfile hstyle
  obtain ⟨sM, pM, h3⟩ := density3d_run dyn3 t0 niter showFlag (some sp) figsize intv
    title rep nsteps style marker norm cmap logfile hstyle
  rw [h2, h3]
  have t1 : ∀ m, Event.warn m ∉ truncEvents logfile := by
    intro m; cases logfile <;> simp [truncEvents]
  have t2 : Event.gifExport sp ∉ truncEvents logfile := by
    cases logfile <;> simp [truncEvents]
  have s1 : ∀ m, Event.warn m ∉ showEvents showFlag := by
    intro m; cases showFlag <;> simp [showEvents]
  have s2 : Event.gifExport sp ∉ showEvents showFlag := by
    cases showFlag <;> simp [showEvents]
  have f1 := frameTrace_not_mem dyn nsteps logfile (List.range niter) s0
    (Event.warn warnMsg) rfl
  have f2 := frameTrace_not_mem dyn nsteps logfile (List.range niter) s0
    (Event.gifExport sp) rfl
  have f3 := frameTrace_not_mem dyn3 nsteps logfile (List.range niter) t0
    (Event.warn warnMsg) rfl
  have f4 := frameTrace_not_mem dyn3 nsteps logfile (List.range niter) t0
    (Event.gifExport sp) rfl
  by_cases hf : fformatOf sp = "gif" <;>
    simp [saveEvents, hf, t1 warnMsg, t2, s1 warnMsg, s2, f1, f2, f3, f4]

/-- C3 amended witness: a png save path warns and does not export. -/
theorem c3_amended_gif_check_witness :
    (Event.gifExport "a.png" ∈ (grid_animation2d dynTriv2 () 0 false (some "a.png")
        (8, 10) 200 none false 1 "grid" "o" none none none).1) ↔
      fformatOf "a.png" = "gif" :=
  (c3_amended_gif_check dynTriv2 dynTriv3 () () 0 false "a.png" (8, 10) 200 none false 1
    "grid" "o" none none none (Or.inl rfl)).1

/-- C9: the RuntimeWarning emitted for a non-gif save path carries the
literal template string with the unfilled placeholder — the offending
extension is never interpolated — in both session variants. -/
theorem c9_warning_literal_template {σ σ2 : Type} (dyn : ModelDyn σ Mat)
    (dyn3 : ModelDyn σ2 Arr3) (s0 : σ) (t0 : σ2) (niter : ℕ) (showFlag : Bool)
    (sp : String) (figsize : ℚ × ℚ) (intv : ℚ) (title : Option String) (rep : Bool)
    (nsteps : ℕ) (style : String) (marker : String) (norm cmap : Option String)
    (logfile : Option String) (hf : fformatOf sp ≠ "gif")
    (hstyle : style = "grid" ∨ style = "pts") :
    warnMsg = "Incorrect file format (.\x7b\x7d instead of .gif). Animation will not be saved." ∧
    ['\x7b', '\x7d'] <:+: warnMsg.data ∧
    Event.warn warnMsg ∈ (grid_animation2d dyn s0 niter showFlag (some sp) figsize intv
      title rep nsteps style marker norm cmap logfile).1 ∧
    (∀ m, Event.warn m ∈ (grid_animation2d dyn s0 niter showFlag (some sp) figsize intv
      title rep nsteps style marker norm cmap logfile).1 → m = warnMsg) ∧
    Event.warn warnMsg ∈ (density3d dyn3 t0 niter showFlag (some sp) figsize intv
      title rep nsteps style marker norm cmap logfile).1 ∧
    (∀ m, Event.warn m ∈ (density3d dyn3 t0 niter showFlag (some sp) figsize intv
      title rep nsteps style marker norm cmap logfile).1 → m = warnMsg) := by
  obtain ⟨sN, pN, h2⟩ := grid_animation2d_run dyn s0 niter showFlag (some sp) figsize intv
    title rep nsteps style marker norm cmap logfile hstyle
  obtain ⟨sM, pM, h3⟩ := density3d_run dyn3 t0 niter showFlag (some sp) figsize intv
    title rep nsteps style marker norm cmap logfile hstyle
  rw [h2, h3]
  have t1 : ∀ m, Event.warn m ∉ truncEvents logfile := by
    intro m; cases logfile <;> simp [truncEvents]
  have s1 : ∀ m, Event.warn m ∉ showEvents showFlag := by
    intro m; cases showFlag <;> simp [showEvents]
  have f1 : ∀ m, Event.warn m ∉ frameTrace dyn nsteps logfile (List.range niter) s0 :=
    fun m => frameTrace_not_mem dyn nsteps logfile (List.range niter) s0 (Event.warn m) rfl
  have f3 : ∀ m, Event.warn m ∉ frameTrace dyn3 nsteps logfile (List.range niter) t0 :=
    fun m => frameTrace_not_mem dyn3 nsteps logfile (List.range niter) t0 (Event.warn m) rfl
  refine ⟨rfl, by decide, ?_, ?_, ?_, ?_⟩
  · simp [saveEvents, hf, t1 warnMsg, s1 warnMsg, f1 warnMsg]
  · intro m hm
    simp [saveEvents, hf, t1 m, s1 m, f1 m] at hm
    exact hm
  · simp [saveEvents, hf, t1 warnMsg, s1 warnMsg, f3 warnMsg]
  · intro m hm
    simp [saveEvents, hf, t1 m, s1 m, f3 m] at hm
    exact hm

/-- C9 witness: the warning event emitted for a png save path at a concrete
session carries the uninterpolated template. -/
theorem c9_warning_literal_template_witness :
    Event.warn warnMsg ∈ (grid_animation2d dynTriv2 () 0 false (some "a.png") (8, 10)
      200 none false 1 "grid" "o" none none none).1 :=
  (c9_warning_literal_template dynTriv2 dynTriv3 () () 0 false "a.png" (8, 10) 200 none
    false 1 "grid" "o" none none none (by decide) (Or.inl rfl)).2.2.1

/-- A trace without truncation events only appends to the file. -/
theorem fileContentFrom_no_trunc (p : String) :
    ∀ (evs : List Event) (acc : String), (∀ q, Event.fopenW q ∉ evs) →
      fileContentFrom p acc evs = acc ++ concatAll (logWrites p evs) := by
  intro evs
  induction evs with
  | nil => intro acc h; simp [fileContentFrom, logWrites, concatAll]
  | cons e rest ih =>
    intro acc h
    have hrest : ∀ q, Event.fopenW q ∉ rest :=
      fun q hq => h q (List.mem_cons_of_mem e hq)
    rw [show fileContentFrom p acc (e :: rest) =
          fileContentFrom p (fileStep p acc e) rest from rfl,
       ih _ hrest]
    cases e with
    | fopenW q => exact absurd (List.mem_cons_self _ _) (h q)
    | fwrite q c =>
      by_cases hq : q = p
      · subst hq
        simp [fileStep, logWrites, concatAll, String.append_assoc]
      · simp [fileStep, logWrites, concatAll, hq]
    | fopenA q => simp [fileStep, logWrites]
    | fclose q => simp [fileStep, logWrites]
    | stdout l => simp [fileStep, logWrites]
    | figureBuilt => simp [fileStep, logWrites]
    | artifactSeeded => simp [fileStep, logWrites]
    | warn m => simp [fileStep, logWrites]
    | gifExport q => simp [fileStep, logWrites]
    | showCall => simp [fileStep, logWrites]

/-- The log writes of a frame trace logging to the same path are exactly
the per-frame records. -/
theorem logWrites_frameTrace (p : String) {σ δ : Type} (dyn : ModelDyn σ δ)
    (nsteps : ℕ) : ∀ (js : List ℕ) (s : σ),
      logWrites p (frameTrace dyn nsteps (some p) js s) = writesAux dyn nsteps js s := by
  intro js
  induction js with
  | nil => intro s; simp [frameTrace, logWrites, writesAux]
  | cons j rest ih =>
    intro s
    rw [show frameTrace dyn nsteps (some p) (j :: rest) s =
          Event.stdout (egstr j (dyn.evolve nsteps s).2) ::
            (logEvents (some p) (egstr j (dyn.evolve nsteps s).2) ++
              frameTrace dyn nsteps (some p) rest (dyn.evolve nsteps s).1) from rfl,
       show writesAux dyn nsteps (j :: rest) s =
          (egstr j (dyn.evolve nsteps s).2 ++ "\n") ::
            writesAux dyn nsteps rest (dyn.evolve nsteps s).1 from rfl,
       ← ih ((dyn.evolve nsteps s).1)]
    simp [logWrites, logEvents, List.filterMap_cons, List.filterMap_append]

/-- The per-frame records over consecutive frame indices, in closed form:
the k-th record is the diagnostic line of the k-th tick. -/
theorem writesAux_range' {σ δ : Type} (dyn : ModelDyn σ δ) (nsteps : ℕ) :
    ∀ (n a : ℕ) (s : σ), writesAux dyn nsteps (List.range' a n) s =
      (List.range n).map fun t => egstr (a + t) (energyAt dyn nsteps s t) ++ "\n" := by
  intro n
  induction n with
  | zero => intro a s; simp [writesAux]
  | succ n ih =>
    intro a s
    rw [List.range'_succ, List.range_succ_eq_map]
    simp only [writesAux, List.map_cons, List.map_map, List.cons.injEq]
    refine ⟨?_, ?_⟩
    · simp [energyAt, stepState]
    · rw [ih]
      refine List.map_congr_left ?_
      intro t ht
      have h1 : a + 1 + t = a + (t + 1) := by omega
      have h2 : energyAt dyn nsteps ((dyn.evolve nsteps s).1) t =
          energyAt dyn nsteps s (t + 1) := by
        simp [energyAt, stepState, Function.iterate_succ_apply]
      simp [Function.comp, h1, h2]

/-- Lines joined with newline terminators are the concatenation of the
newline-terminated chunks. -/
theorem unlines_eq_concatAll (ls : List String) :
    unlines ls = concatAll (ls.map fun l => l ++ "\n") := by
  induction ls with
  | nil => rfl
  | cons l rest ih => simp [unlines, concatAll, ih, String.append_assoc]

/-- No truncating open occurs after the session prologue. -/
theorem no_fopenW_in_session_tail {σ δ : Type} (dyn : ModelDyn σ δ) (nsteps : ℕ)
    (lf2 : Option String) (js : List ℕ) (s : σ) (savepath : Option String) (b : Bool)
    (q : String) :
    Event.fopenW q ∉ ([Event.figureBuilt, Event.artifactSeeded] ++
      frameTrace dyn nsteps lf2 js s ++ saveEvents savepath ++ showEvents b) := by
  intro hmem
  rcases List.mem_append.1 hmem with h | h
  · rcases List.mem_append.1 h with h | h
    · rcases List.mem_append.1 h with h | h
      · simp at h
      · exact frameTrace_not_mem dyn nsteps lf2 js s (Event.fopenW q) rfl h
    · cases savepath with
      | none => simp [saveEvents] at h
      | some sp => by_cases hf : fformatOf sp ≠ "gif" <;> simp [saveEvents, hf] at h
  · cases b <;> simp [showEvents] at h

/-- The session-start truncation pair resets the file and leaves the rest
of the trace to act on the empty content. -/
theorem fileContent_trunc_cons (p : String) (tail : List Event) :
    fileContent p (Event.fopenW p :: Event.fclose p :: tail) =
      fileContentFrom p "" tail := by
  simp [fileContent, fileContentFrom, fileStep]

/-- Content of the configured log after a completed session trace: the
newline-terminated diagnostic records of frames 0..niter-1, in order. -/
theorem fileContent_session_trace {σ δ : Type} (dyn : ModelDyn σ δ) (nsteps : ℕ)
    (p : String) (niter : ℕ) (savepath : Option String) (showFlag : Bool) (s0 : σ) :
    fileContent p (truncEvents (some p) ++ [Event.figureBuilt, Event.artifactSeeded] ++
        frameTrace dyn nsteps (some p) (List.range niter) s0 ++ saveEvents savepath ++
        showEvents showFlag) =
      unlines ((List.range niter).map fun k => egstr k (energyAt dyn nsteps s0 k)) := by
  have hnt : ∀ q, Event.fopenW q ∉ (Event.figureBuilt :: Event.artifactSeeded ::
      (frameTrace dyn nsteps (some p) (List.range niter) s0 ++
        (saveEvents savepath ++ showEvents showFlag))) := by
    intro q
    have h := no_fopenW_in_session_tail dyn nsteps (some p) (List.range niter) s0
      savepath showFlag q
    simpa [List.append_assoc] using h
  have w1 : logWrites p (saveEvents savepath) = [] := by
    cases savepath with
    | none => rfl
    | some sp => by_cases hf : fformatOf sp ≠ "gif" <;> simp [saveEvents, hf, logWrites]
  have w2 : logWrites p (showEvents showFlag) = [] := by
    cases showFlag <;> rfl
  rw [show truncEvents (some p) ++ [Event.figureBuilt, Event.artifactSeeded] ++
        frameTrace dyn nsteps (some p) (List.range niter) s0 ++ saveEvents savepath ++
        showEvents showFlag =
      Event.fopenW p :: Event.fclose p :: (Event.figureBuilt :: Event.artifactSeeded ::
        (frameTrace dyn nsteps (some p) (List.range niter) s0 ++
          (saveEvents savepath ++ showEvents showFlag))) from by
        simp [truncEvents, List.append_assoc]]
  rw [fileContent_trunc_cons, fileContentFrom_no_trunc p _ "" hnt]
  rw [show logWrites p (Event.figureBuilt :: Event.artifactSeeded ::
        (frameTrace dyn nsteps (some p) (List.range niter) s0 ++
          (saveEvents savepath ++ showEvents showFlag))) =
      logWrites p (frameTrace dyn nsteps (some p) (List.range niter) s0) ++
        (logWrites p (saveEvents savepath) ++ logWrites p (showEvents showFlag)) from by
        simp [logWrites, List.filterMap_cons, List.filterMap_append]]
  rw [w1, w2, logWrites_frameTrace]
  have hw : writesAux dyn nsteps (List.range niter) s0 =
      (List.range niter).map fun t => egstr (0 + t) (energyAt dyn nsteps s0 t) ++ "\n" := by
    have h := writesAux_range' dyn nsteps niter 0 s0
    rw [← List.range_eq_range' niter] at h
    exact h
  rw [hw]
  simp [unlines_eq_concatAll, List.map_map, Function.comp_def]

/-- C5: after a completed session with a configured log path, the log file
holds exactly niter lines, the k-th being the record of frame k, in frame
order 0..niter-1 — for the 2D and the 3D session alike. -/
theorem c5_log_file_lines {σ σ2 : Type} (dyn : ModelDyn σ Mat) (dyn3 : ModelDyn σ2 Arr3)
    (s0 : σ) (t0 : σ2) (niter : ℕ) (showFlag : Bool) (savepath : Option String)
    (figsize : ℚ × ℚ) (intv : ℚ) (title : Option String) (rep : Bool) (nsteps : ℕ)
    (style : String) (marker : String) (norm cmap : Option String) (p : String)
    (hstyle : style = "grid" ∨ style = "pts") :
    ((List.range niter).map fun k => egstr k (energyAt dyn nsteps s0 k)).length = niter ∧
    (∀ k, k < niter →
      ((List.range niter).map fun k => egstr k (energyAt dyn nsteps s0 k)).getD k "" =
        egstr k (energyAt dyn nsteps s0 k)) ∧
    fileContent p (grid_animation2d dyn s0 niter showFlag savepath figsize intv title rep
        nsteps style marker norm cmap (some p)).1 =
      unlines ((List.range niter).map fun k => egstr k (energyAt dyn nsteps s0 k)) ∧
    fileContent p (density3d dyn3 t0 niter showFlag savepath figsize intv title rep
        nsteps style marker norm cmap (some p)).1 =
      unlines ((List.range niter).map fun k => egstr k (energyAt dyn3 nsteps t0 k)) := by
  obtain ⟨sN, pN, h2⟩ := grid_animation2d_run dyn s0 niter showFlag savepath figsize intv
    title rep nsteps style marker norm cmap (some p) hstyle
  obtain ⟨sM, pM, h3⟩ := density3d_run dyn3 t0 niter showFlag savepath figsize intv
    title rep nsteps style marker norm cmap (some p) hstyle
  refine ⟨by simp, ?_, ?_, ?_⟩
  · intro k hk
    simp [List.getD_eq_getElem?_getD, List.getElem?_map, List.getElem?_range, hk]
  · simp only [h2]
    exact fileContent_session_trace dyn nsteps p niter savepath showFlag s0
  · simp only [h3]
    exact fileContent_session_trace dyn3 nsteps p niter savepath showFlag t0

/-- C5 witness: a one-frame 2D grid session writes exactly one record. -/
theorem c5_log_file_lines_witness :
    fileContent "log" (grid_animation2d dynTriv2 () 1 false none (8, 10) 200 none false 1
        "grid" "o" none none (some "log")).1 =
      unlines ((List.range 1).map fun k => egstr k (energyAt dynTriv2 1 () k)) :=
  (c5_log_file_lines dynTriv2 dynTriv3 () () 1 false none (8, 10) 200 none false 1 "grid"
    "o" none none "log" (Or.inl rfl)).2.2.1

/-- C6: with a configured log path, both sessions open the log for writing
and close it as the very first two effects — before the figure is built,
before the artifact is seeded, and before any frame — and no truncating
open ever occurs afterwards (all later file traffic is appends). -/
theorem c6_log_truncated_first {σ σ2 : Type} (dyn : ModelDyn σ Mat)
    (dyn3 : ModelDyn σ2 Arr3) (s0 : σ) (t0 : σ2) (niter : ℕ) (showFlag : Bool)
    (savepath : Option String) (figsize : ℚ × ℚ) (intv : ℚ) (title : Option String)
    (rep : Bool) (nsteps : ℕ) (style : String) (marker : String)
    (norm cmap : Option String) (p : String) :
    ((grid_animation2d dyn s0 niter showFlag savepath figsize intv title rep nsteps style
        marker norm cmap (some p)).1.take 2 = [Event.fopenW p, Event.fclose p]) ∧
    (∀ e ∈ (grid_animation2d dyn s0 niter showFlag savepath figsize intv title rep nsteps
        style marker norm cmap (some p)).1.drop 2, ∀ q, e ≠ Event.fopenW q) ∧
    ((density3d dyn3 t0 niter showFlag savepath figsize intv title rep nsteps style
        marker norm cmap (some p)).1.take 2 = [Event.fopenW p, Event.fclose p]) ∧
    (∀ e ∈ (density3d dyn3 t0 niter showFlag savepath figsize intv title rep nsteps
        style marker norm cmap (some p)).1.drop 2, ∀ q, e ≠ Event.fopenW q) := by
  by_cases hstyle : style = "grid" ∨ style = "pts"
  · obtain ⟨sN, pN, h2⟩ := grid_animation2d_run dyn s0 niter showFlag savepath figsize
      intv title rep nsteps style marker norm cmap (some p) hstyle
    obtain ⟨sM, pM, h3⟩ := density3d_run dyn3 t0 niter showFlag savepath figsize intv
      title rep nsteps style marker norm cmap (some p) hstyle
    have hnt : ∀ q, Event.fopenW q ∉ (Event.figureBuilt :: Event.artifactSeeded ::
        (frameTrace dyn nsteps (some p) (List.range niter) s0 ++
          (saveEvents savepath ++ showEvents showFlag))) := by
      intro q
      have h := no_fopenW_in_session_tail dyn nsteps (some p) (List.range niter) s0
        savepath showFlag q
      simpa [List.append_assoc] using h
    have hnt3 : ∀ q, Event.fopenW q ∉ (Event.figureBuilt :: Event.artifactSeeded ::
        (frameTrace dyn3 nsteps (some p) (List.range niter) t0 ++
          (saveEvents savepath ++ showEvents showFlag))) := by
      intro q
      have h := no_fopenW_in_session_tail dyn3 nsteps (some p) (List.range niter) t0
        savepath showFlag q
      simpa [List.append_assoc] using h
    simp only [h2, h3]
    refine ⟨by simp [truncEvents], ?_, by simp [truncEvents], ?_⟩
    · intro e he q heq
      subst heq
      refine hnt q ?_
      simpa [truncEvents, List.append_assoc] using he
    · intro e he q heq
      subst heq
      refine hnt3 q ?_
      simpa [truncEvents, List.append_assoc] using he
  · push_neg at hstyle
    simp only [grid_animation2d, density3d, grid2dInitPlot, density3dInitPlot,
      if_neg hstyle.1, if_neg hstyle.2, truncEvents]
    refine ⟨by simp, ?_, by simp, ?_⟩ <;>
      · intro e he q heq
        subst heq
        simp at he

/-- C6 witness: the first two trace events of a concrete logged session are
the truncating open and its close. -/
theorem c6_log_truncated_first_witness :
    (grid_animation2d dynTriv2 () 1 false none (8, 10) 200 none false 1 "grid" "o" none
        none (some "log")).1.take 2 = [Event.fopenW "log", Event.fclose "log"] :=
  (c6_log_truncated_first dynTriv2 dynTriv3 () () 1 false none (8, 10) 200 none false 1
    "grid" "o" none none "log").1

/-- C1 witness: the grid tick of the 3D advancer at a concrete model. -/
theorem c1_grid3d_sum_transpose_witness :
    evoframe3d dynTriv3 0 () (Plot.image [[0]]) "grid" 1 "o" none =
      (Event.stdout (egstr 0 (dynTriv3.evolve 1 ()).2) ::
         logEvents none (egstr 0 (dynTriv3.evolve 1 ()).2),
       .ok ((dynTriv3.evolve 1 ()).1,
            Plot.image (List.transpose
              (sumAxisLast (dynTriv3.density (dynTriv3.evolve 1 ()).1))))) :=
  (c1_grid3d_sum_transpose dynTriv3 0 () () [[0]] 1 "o" none).1

/-- C2 witness: the reporter events of a concrete logged tick. -/
theorem c2_diagnostic_reporter_witness :
    (evoframe dynTriv2 0 () (Plot.image [[0]]) "grid" 1 "o" (some "log")).1 =
      Event.stdout (egstr 0 (dynTriv2.evolve 1 ()).2) ::
        logEvents (some "log") (egstr 0 (dynTriv2.evolve 1 ()).2) :=
  (c2_diagnostic_reporter dynTriv2 dynTriv3 0 () () (Plot.image [[0]]) (Plot.image [[0]])
    "grid" "grid" 1 "o" (some "log")).1

/-- C7 witness: the pts tick of the 2D advancer at a concrete model. -/
theorem c7_points_passthrough_witness :
    evoframe dynTriv2 0 () (Plot.line [] []) "pts" 1 "o" none =
      (Event.stdout (egstr 0 (dynTriv2.evolve 1 ()).2) ::
         logEvents none (egstr 0 (dynTriv2.evolve 1 ()).2),
       .ok ((dynTriv2.evolve 1 ()).1,
            Plot.line (col (dynTriv2.pos (dynTriv2.evolve 1 ()).1) 0)
              (col (dynTriv2.pos (dynTriv2.evolve 1 ()).1) 1))) :=
  (c7_points_passthrough dynTriv2 dynTriv3 0 () () [] [] [] [] 1 "o" none).1
